import Mathlib

/-!
Shallow embedding of `src/tts_proxy.py` (a FastAPI text-to-speech proxy)
and verification of its specification claims.

Modelling conventions:
* Environment configuration (`ELEVEN_API_KEY`, `ELEVEN_VOICE_ID`,
  `TTS_SHARED_TOKEN`) is a `Config` record passed explicitly.
* An inbound JSON body is `Option JsonBody`: `none` stands for an
  unparseable body (`await request.json()` failing), `some` carries the
  fields the handlers actually read.  Python truthiness of strings
  (`x or y`, falsy for `None` and `""`) is `orStr`.
* Each route handler is a pure function to `Outcome`: a raised
  `HTTPException` becomes `Outcome.error status detail`; an exception the
  handler does not catch (e.g. a JSON parse error outside a `try`)
  becomes `Outcome.serverError`, which the framework reports as HTTP 500;
  a returned `StreamingResponse` becomes `Outcome.response` carrying the
  arguments handed to the `eleven_stream` generator, the media type and
  the extra response headers.  For `/v1/audio/speech` the body is parsed
  into the Pydantic model before the handler runs, so that route takes an
  `Option OpenAITTSRequest` (`none` = request-validation failure, which
  FastAPI answers with 422 before the handler body executes).
* The `eleven_stream` generator is split into its two straight-line
  halves: `eleven_stream_request` (defaults, URL, headers, payload) and
  `eleven_stream` (the session assertion, the upstream status check and
  the chunk relay loop).  The upstream reply is an `UpstreamResponse`:
  status, error text, and the response body as the list of byte segments
  in which it arrives; `iter_chunked` models
  `aiohttp.StreamReader.iter_chunked(8192)`, which re-delivers buffered
  data in pieces of at most the requested size.  Bytes are `Nat`.
* The `speed` field of the OpenAI request model is parsed by the source
  but never forwarded anywhere, so it is omitted from the embedding.
-/

namespace TTSProxy

/-- Environment configuration read once at module import. -/
structure Config where
  ELEVEN_API_KEY : String
  ELEVEN_VOICE_ID : String
  TTS_SHARED_TOKEN : String
deriving DecidableEq, Repr

/-- Python `a or b` on an optional string: `None` and `""` are falsy. -/
def orStr (a : Option String) (b : String) : String :=
  match a with
  | none => b
  | some v => if v = "" then b else v

/-- Model of Python `str.strip()`: drop whitespace from both ends. -/
def pyStrip (s : String) : String :=
  ⟨((s.data.dropWhile Char.isWhitespace).reverse.dropWhile Char.isWhitespace).reverse⟩

/-- Model of Python `str.lower()`: lowercase every character. -/
def pyLower (s : String) : String :=
  ⟨s.data.map Char.toLower⟩

/-- Fields of an inbound JSON object that any handler reads.
`none` means the key is absent. -/
structure JsonBody where
  text : Option String := none
  input : Option String := none
  voice : Option String := none
  voice_id : Option String := none
  format : Option String := none
  model_id : Option String := none
  voice_settings : Option (List (String × String)) := none
  optimize_streaming_latency : Option Int := none
deriving DecidableEq, Repr

/-- An inbound HTTP request as the handlers observe it: the
`X-TTS-Token` header (if present) and the JSON body (`none` when the
body does not parse as JSON). -/
structure Request where
  xTTSToken : Option String := none
  body : Option JsonBody := none
deriving DecidableEq, Repr

/-- The argument tuple a handler passes to the `eleven_stream`
generator. -/
structure StreamCall where
  text : String
  voice_id : Option String := none
  model_id : Option String := none
  voice_settings : Option (List (String × String)) := none
  optimize_latency : Int := 4
  accept : String := "audio/mpeg"
deriving DecidableEq, Repr

/-- Result of running a route: a streaming response (the upstream call
that will be made, the declared media type, extra headers), a raised
`HTTPException`, or an exception the handler does not catch (the
framework turns it into an HTTP 500). -/
inductive Outcome where
  | response (call : StreamCall) (media_type : String) (hdrs : List (String × String))
  | error (status : Nat) (detail : String)
  | serverError
deriving DecidableEq, Repr

/-- HTTP status of an outcome: 200 for a streaming response, the raised
status for an `HTTPException`, 500 for an uncaught exception. -/
def Outcome.statusCode : Outcome → Nat
  | .response _ _ _ => 200
  | .error s _ => s
  | .serverError => 500

/-- An outcome is a 400-class client error. -/
def Outcome.isClientError : Outcome → Bool
  | .error s _ => 400 ≤ s && s < 500
  | _ => false

/-- An outcome performs an outbound upstream call: only a returned
streaming response drives the `eleven_stream` generator. -/
def Outcome.callsUpstream : Outcome → Bool
  | .response _ _ _ => true
  | _ => false

/-- Model of `_authed`: pass when no shared token is configured, or when
the `X-TTS-Token` header equals it. -/
def _authed (cfg : Config) (req : Request) : Bool :=
  cfg.TTS_SHARED_TOKEN = "" || req.xTTSToken = some cfg.TTS_SHARED_TOKEN

/-- Substring predicate on `List Char`: first list starts the second. -/
def startsL : List Char → List Char → Bool
  | [], _ => true
  | _ :: _, [] => false
  | a :: as, b :: bs => a = b && startsL as bs

/-- Substring predicate on `List Char`: needle occurs in hay. -/
def containsL (needle : List Char) : List Char → Bool
  | [] => startsL needle []
  | h :: t => startsL needle (h :: t) || containsL needle t

/-- Model of Python `needle in hay` on strings. -/
def strContains (hay needle : String) : Bool :=
  containsL needle.data hay.data

/-- Model of `_accept_for`: the Accept header for the ElevenLabs call,
keyed on substring tests of the lowercased format string. -/
def _accept_for (fmt : String) : String :=
  let f := pyLower fmt
  if strContains f "ogg" || strContains f "opus" then "audio/ogg"
  else "audio/mpeg"

/-- Model of `_mime_type`: exact-match table lookup on the lowercased
format (defaulting the empty format to mp3), falling back to
`audio/mpeg` for any unknown key. -/
def _mime_type (fmt : String) : String :=
  let f := pyLower (if fmt = "" then "mp3" else fmt)
  if f = "mp3" then "audio/mpeg"
  else if f = "opus" then "audio/ogg"
  else if f = "wav" then "audio/wav"
  else if f = "aac" then "audio/aac"
  else if f = "flac" then "audio/flac"
  else "audio/mpeg"

/-- The aiohttp client session created at startup (the configuration
values the source passes to it). -/
structure Session where
  total_timeout : Nat
  conn_limit : Nat
  keepalive_timeout : Nat
deriving DecidableEq, Repr

/-- Lifecycle events of the process: the startup and shutdown hooks. -/
inductive LifeEvent where
  | startup
  | shutdown
deriving DecidableEq, Repr

/-- Model of the `_startup` hook, which replaces the global session with
a fresh `ClientSession(timeout=20, connector=TCPConnector(limit=64,
keepalive_timeout=30))`, and of the `_shutdown` hook, which closes the
session if live and sets the global to `None` (so the global is `None`
afterwards either way). -/
def applyEvent : Option Session → LifeEvent → Option Session
  | _, .startup => some { total_timeout := 20, conn_limit := 64, keepalive_timeout := 30 }
  | _, .shutdown => none

/-- Run a sequence of lifecycle events from a given session state. -/
def runEvents (s : Option Session) : List LifeEvent → Option Session
  | [] => s
  | e :: es => runEvents (applyEvent s e) es

/-- The upstream reply: HTTP status, the error body text (read when the
status is not 200), and the success body as the byte segments in which
the network delivers it. -/
structure UpstreamResponse where
  status : Nat
  errorText : String
  bodySegs : List (List Nat)
deriving DecidableEq, Repr

/-- How `eleven_stream` fails: the `assert session is not None` firing,
or the raised `HTTPException` for a non-200 upstream status. -/
inductive StreamError where
  | assertionFailed (msg : String)
  | httpError (status : Nat) (detail : String)
deriving DecidableEq, Repr

/-- Split one delivered segment into consecutive pieces of at most `n`
bytes, as `StreamReader.read(n)` caps each returned chunk at `n`. -/
def chunkEvery (n : Nat) (l : List Nat) : List (List Nat) :=
  if h : l = [] then []
  else if hn : n = 0 then [l]
  else l.take n :: chunkEvery n (l.drop n)
termination_by l.length
decreasing_by
  have hl : 0 < l.length := List.length_pos.mpr h
  simp [List.length_drop]
  omega

/-- Model of `r.content.iter_chunked(n)`: each arriving segment is
handed out as chunks of at most `n` bytes, in order. -/
def iter_chunked (n : Nat) : List (List Nat) → List (List Nat)
  | [] => []
  | seg :: rest => chunkEvery n seg ++ iter_chunked n rest

/-- Concatenation of a list of byte chunks. -/
def joinL : List (List Nat) → List Nat
  | [] => []
  | c :: cs => c ++ joinL cs

/-- Model of the body of `eleven_stream` after the request is built: the
session assertion, then `session.post`; on a non-200 status the error
body is read and re-raised as a 502 `HTTPException` before anything is
yielded; on 200 the body is relayed via `iter_chunked(8192)`, skipping
falsy (empty) chunks. -/
def eleven_stream (session : Option Session) (u : UpstreamResponse) :
    Except StreamError (List (List Nat)) :=
  match session with
  | none => .error (.assertionFailed "Session not initialized")
  | some _ =>
    if u.status ≠ 200 then
      .error (.httpError 502 ("ElevenLabs API error: " ++ u.errorText))
    else
      .ok ((iter_chunked 8192 u.bodySegs).filter (fun c => !c.isEmpty))

/-- The outbound HTTP request `eleven_stream` builds before posting. -/
structure ElevenRequest where
  url : String
  api_key : String
  accept : String
  content_type : String
  text : String
  model_id : String
  optimize_streaming_latency : Int
  voice_settings : Option (List (String × String))
deriving DecidableEq, Repr

/-- Model of the request-building half of `eleven_stream`: defaulting of
`voice_id` and `model_id` (Python `or`, so empty strings also fall
back), the per-voice streaming URL, the headers, and the JSON payload
(`voice_settings` included only when truthy, i.e. a non-empty dict). -/
def eleven_stream_request (cfg : Config) (c : StreamCall) : ElevenRequest :=
  let voice_id := orStr c.voice_id cfg.ELEVEN_VOICE_ID
  let model_id := orStr c.model_id "eleven_flash_v2_5"
  { url := "https://api.elevenlabs.io/v1/text-to-speech/" ++ voice_id ++ "/stream"
    api_key := cfg.ELEVEN_API_KEY
    accept := c.accept
    content_type := "application/json"
    text := c.text
    model_id := model_id
    optimize_streaming_latency := c.optimize_latency
    voice_settings :=
      match c.voice_settings with
      | none => none
      | some vs => if vs = [] then none else some vs }

/-- Model of `POST /speak`: token auth first, then `await req.json()`
with no exception handling (a parse failure escapes as a server error),
then the empty-text check, then a plain `audio/mpeg` stream using every
`eleven_stream` default. -/
def speak (cfg : Config) (req : Request) : Outcome :=
  if !(_authed cfg req) then .error 401 "Unauthorized"
  else
    match req.body with
    | none => .serverError
    | some data =>
      let text := pyStrip (data.text.getD "")
      if text = "" then .error 400 "Empty text"
      else .response { text := text } "audio/mpeg" []

/-- Model of `POST /tts/speech`: JSON parse inside a `try` (failure is a
400), first-truthy-wins extraction of text and voice, the
case-insensitive `"default"` voice sentinel, format mapped through
`_accept_for`, and the anti-buffering headers on the stream. -/
def owui_backend_compat (cfg : Config) (req : Request) : Outcome :=
  match req.body with
  | none => .error 400 "Invalid JSON"
  | some payload =>
    let text := pyStrip (orStr payload.text (orStr payload.input ""))
    let voice0 := orStr payload.voice (orStr payload.voice_id cfg.ELEVEN_VOICE_ID)
    let voice := if voice0 ≠ "" ∧ pyLower voice0 = "default" then cfg.ELEVEN_VOICE_ID else voice0
    let fmt := orStr payload.format "audio/mpeg"
    if text = "" then .error 400 "Missing 'text' or 'input' field"
    else
      let accept := _accept_for fmt
      .response
        { text := text, voice_id := some voice, model_id := some "eleven_flash_v2_5"
          optimize_latency := 4, accept := accept }
        accept
        [("X-Accel-Buffering", "no"), ("Cache-Control", "no-store")]

/-- Model of `POST /tts//speech`, which delegates to the canonical
handler. -/
def owui_backend_compat_slashslash (cfg : Config) (req : Request) : Outcome :=
  owui_backend_compat cfg req

/-- Model of `POST /v1/text-to-speech/(voice_id)`: unguarded JSON parse
(failure escapes as a server error), empty-text check, optional
`model_id` / `voice_settings` / `optimize_streaming_latency`, and a
fixed `audio/mpeg` stream; the path voice id is passed through
untouched. -/
def eleven_compatible (cfg : Config) (voice_id : String) (req : Request) : Outcome :=
  match req.body with
  | none => .serverError
  | some body =>
    let text := pyStrip (body.text.getD "")
    if text = "" then .error 400 "Missing text"
    else
      .response
        { text := text, voice_id := some voice_id
          model_id := some (body.model_id.getD "eleven_flash_v2_5")
          voice_settings := body.voice_settings
          optimize_latency := body.optimize_streaming_latency.getD 4
          accept := "audio/mpeg" }
        "audio/mpeg"
        [("X-Accel-Buffering", "no"), ("Cache-Control", "no-store")]

/-- Model of `POST /text-to-speech/(voice_id)`, which delegates to the
versioned handler. -/
def eleven_compatible_alias (cfg : Config) (voice_id : String) (req : Request) : Outcome :=
  eleven_compatible cfg voice_id req

/-- The Pydantic request model of `POST /v1/audio/speech` (the unused
`speed` field is omitted; see the header comment). -/
structure OpenAITTSRequest where
  model : String := "tts-1"
  voice : Option String := none
  input : String
  response_format : Option String := some "mp3"
deriving DecidableEq, Repr

/-- Model of `POST /v1/audio/speech` as served by the framework: body
validation against the Pydantic model happens first (`none` = the body
is malformed or misses `input`, answered 422 before the handler runs),
then the inline shared-token check, text trimming, voice defaulting with
the case-insensitive `"default"` sentinel, format mapping through
`_mime_type`, and the checks for empty text and empty voice. -/
def openai_audio_speech (cfg : Config) (parsed : Option OpenAITTSRequest)
    (xTTSToken : Option String) : Outcome :=
  match parsed with
  | none => .error 422 "Unprocessable Entity"
  | some r =>
    if cfg.TTS_SHARED_TOKEN ≠ "" ∧ xTTSToken.getD "" ≠ cfg.TTS_SHARED_TOKEN then
      .error 401 "Invalid TTS token"
    else
      let text := pyStrip r.input
      let voice0 := orStr r.voice cfg.ELEVEN_VOICE_ID
      let voice := if voice0 ≠ "" ∧ pyLower voice0 = "default" then cfg.ELEVEN_VOICE_ID else voice0
      let fmt := pyLower (orStr r.response_format "mp3")
      if text = "" then .error 400 "Missing 'input' text"
      else if voice = "" then .error 400 "Missing voice ID"
      else
        let accept := _mime_type fmt
        .response
          { text := text, voice_id := some voice, model_id := some "eleven_flash_v2_5"
            optimize_latency := 4, accept := accept }
          accept
          [("X-Accel-Buffering", "no"), ("Cache-Control", "no-store")]

/-- Bytes actually emitted to the caller by a run of `eleven_stream`: a
raised exception emits nothing, a successful stream emits the
concatenation of its chunks. -/
def emittedBytes (r : Except StreamError (List (List Nat))) : List Nat :=
  match r with
  | .ok cs => joinL cs
  | .error _ => []

theorem startsL_self : ∀ l : List Char, startsL l l = true
  | [] => rfl
  | a :: as => by simp [startsL, startsL_self as]

theorem containsL_append_self (needle : List Char) :
    ∀ pre : List Char, containsL needle (pre ++ needle) = true := by
  intro pre
  induction pre with
  | nil =>
    cases needle with
    | nil => rfl
    | cons a as => simp [containsL, startsL_self]
  | cons p ps ih => simp [containsL, ih]

theorem strContains_append (a b : String) : strContains (a ++ b) b = true := by
  unfold strContains
  rw [String.data_append]
  exact containsL_append_self b.data a.data

theorem joinL_append : ∀ a b : List (List Nat), joinL (a ++ b) = joinL a ++ joinL b
  | [], _ => rfl
  | c :: cs, b => by simp [joinL, joinL_append cs b]

theorem joinL_chunkEvery (n : Nat) (l : List Nat) : joinL (chunkEvery n l) = l := by
  generalize hk : l.length = k
  induction k using Nat.strong_induction_on generalizing l with
  | _ k ih =>
    rw [chunkEvery]
    split
    · rename_i h
      subst h
      rfl
    · split
      · simp [joinL]
      · rename_i h hn
        rw [joinL]
        have hlen : (l.drop n).length < k := by
          have hl : 0 < l.length := List.length_pos.mpr h
          rw [List.length_drop]
          omega
        rw [ih _ hlen _ rfl]
        exact List.take_append_drop n l

theorem mem_chunkEvery_length_le (n : Nat) (hn : n ≠ 0) (l : List Nat) :
    ∀ c ∈ chunkEvery n l, c.length ≤ n := by
  generalize hk : l.length = k
  induction k using Nat.strong_induction_on generalizing l with
  | _ k ih =>
    rw [chunkEvery]
    split
    · intro c hc
      simp at hc
    · rename_i h
      intro c hc
      rcases List.mem_cons.mp hc with hc | hc
      · subst hc
        calc (l.take n).length = min n l.length := List.length_take n l
          _ ≤ n := min_le_left _ _
      · have hlen : (l.drop n).length < k := by
          have hl : 0 < l.length := List.length_pos.mpr h
          rw [List.length_drop]
          omega
        exact ih _ hlen _ rfl c hc

theorem joinL_iter_chunked (n : Nat) :
    ∀ segs : List (List Nat), joinL (iter_chunked n segs) = joinL segs
  | [] => rfl
  | seg :: rest => by
    rw [iter_chunked, joinL_append, joinL_chunkEvery, joinL, joinL_iter_chunked n rest]

theorem mem_iter_chunked_length_le (n : Nat) (hn : n ≠ 0) :
    ∀ segs : List (List Nat), ∀ c ∈ iter_chunked n segs, c.length ≤ n := by
  intro segs
  induction segs with
  | nil => intro c hc; simp [iter_chunked] at hc
  | cons seg rest ih =>
    intro c hc
    rw [iter_chunked] at hc
    rcases List.mem_append.mp hc with hc | hc
    · exact mem_chunkEvery_length_le n hn seg c hc
    · exact ih c hc

theorem joinL_filter_nonempty :
    ∀ cs : List (List Nat), joinL (cs.filter (fun c => !c.isEmpty)) = joinL cs := by
  intro cs
  induction cs with
  | nil => rfl
  | cons c rest ih =>
    cases c with
    | nil => simpa [joinL] using ih
    | cons b bs => simp [joinL, ih]

/-- C1: for every synthesis call, a non-200 upstream status makes
`eleven_stream` raise a 502 `HTTPException` whose detail contains the
upstream error text, and no audio bytes are emitted to the caller (the
exception is raised before the chunk loop can yield). -/
theorem spec_C1 (s : Session) (u : UpstreamResponse) (h : u.status ≠ 200) :
    eleven_stream (some s) u =
      Except.error (StreamError.httpError 502 ("ElevenLabs API error: " ++ u.errorText)) ∧
    strContains ("ElevenLabs API error: " ++ u.errorText) u.errorText = true ∧
    emittedBytes (eleven_stream (some s) u) = [] := by
  refine ⟨?_, strContains_append _ _, ?_⟩
  · simp [eleven_stream, h]
  · simp [eleven_stream, h, emittedBytes]

/-- Witness for C1 at a concrete non-200 upstream reply. -/
theorem spec_C1_witness :
    eleven_stream (some ⟨20, 64, 30⟩) ⟨404, "voice not found", []⟩ =
      Except.error (StreamError.httpError 502 ("ElevenLabs API error: " ++ "voice not found")) ∧
    strContains ("ElevenLabs API error: " ++ "voice not found") "voice not found" = true ∧
    emittedBytes (eleven_stream (some ⟨20, 64, 30⟩) ⟨404, "voice not found", []⟩) = [] :=
  spec_C1 ⟨20, 64, 30⟩ ⟨404, "voice not found", []⟩ (by decide)

/-- C2: for every 200 upstream reply, the relayed stream is a chunk list
whose concatenation is exactly the upstream body, in order, with every
chunk non-empty and of at most 8192 bytes. -/
theorem spec_C2 (s : Session) (u : UpstreamResponse) (h : u.status = 200) :
    ∃ cs, eleven_stream (some s) u = Except.ok cs ∧
      joinL cs = joinL u.bodySegs ∧
      ∀ c ∈ cs, c ≠ [] ∧ c.length ≤ 8192 := by
  refine ⟨(iter_chunked 8192 u.bodySegs).filter (fun c => !c.isEmpty), ?_, ?_, ?_⟩
  · simp [eleven_stream, h]
  · rw [joinL_filter_nonempty, joinL_iter_chunked]
  · intro c hc
    rw [List.mem_filter] at hc
    refine ⟨?_, mem_iter_chunked_length_le 8192 (by decide) u.bodySegs c hc.1⟩
    cases c with
    | nil => simpa using hc.2
    | cons b bs => simp

/-- Witness for C2 at a concrete 200 upstream reply. -/
theorem spec_C2_witness :
    ∃ cs, eleven_stream (some ⟨20, 64, 30⟩) ⟨200, "", [[1, 2, 3], [], [4]]⟩ = Except.ok cs ∧
      joinL cs = joinL [[1, 2, 3], [], [4]] ∧
      ∀ c ∈ cs, c ≠ [] ∧ c.length ≤ 8192 :=
  spec_C2 ⟨20, 64, 30⟩ ⟨200, "", [[1, 2, 3], [], [4]]⟩ rfl

/-- C3 counterexample: on the OpenAI-compatible route the format
`"ogg"` is not a key of the `_mime_type` table, so it falls back to
`audio/mpeg`; it does not map to `audio/ogg` as the claim states. -/
theorem spec_C3_counterexample :
    _mime_type "ogg" = "audio/mpeg" ∧ _mime_type "ogg" ≠ "audio/ogg" := by
  constructor
  · decide
  · decide

/-- C3 amended: format mapping is total and deterministic.  On the
routes using `_accept_for`, any format whose lowercasing contains
`ogg` or `opus` maps to `audio/ogg` and everything else (in particular
`mp3`, `mpeg` and the empty format) maps to `audio/mpeg`.  On the
OpenAI-compatible route `_mime_type` is an exact-match table:
`mp3` (and the unspecified format, which defaults to `mp3`) maps to
`audio/mpeg`, `opus` to `audio/ogg`, `wav` to `audio/wav`, `aac` to
`audio/aac`, `flac` to `audio/flac`, and any other value — including
`ogg` and `mpeg` — falls back to `audio/mpeg`. -/
theorem spec_C3 :
    (∀ fmt : String,
      (strContains (pyLower fmt) "ogg" || strContains (pyLower fmt) "opus") = true →
      _accept_for fmt = "audio/ogg") ∧
    (∀ fmt : String,
      (strContains (pyLower fmt) "ogg" || strContains (pyLower fmt) "opus") = false →
      _accept_for fmt = "audio/mpeg") ∧
    _mime_type "mp3" = "audio/mpeg" ∧ _mime_type "mpeg" = "audio/mpeg" ∧
    _mime_type "" = "audio/mpeg" ∧ _mime_type "opus" = "audio/ogg" ∧
    _mime_type "wav" = "audio/wav" ∧ _mime_type "aac" = "audio/aac" ∧
    _mime_type "flac" = "audio/flac" ∧ _mime_type "ogg" = "audio/mpeg" := by
  refine ⟨?_, ?_, by decide, by decide, by decide, by decide, by decide, by decide,
    by decide, by decide⟩
  · intro fmt h
    simp only [_accept_for, h, if_true]
  · intro fmt h
    simp only [_accept_for, h, Bool.false_eq_true, if_false]

/-- Witness for C3 at concrete formats on both mapping functions. -/
theorem spec_C3_witness :
    _accept_for "OGG_VORBIS" = "audio/ogg" ∧ _accept_for "mp3" = "audio/mpeg" :=
  ⟨spec_C3.1 "OGG_VORBIS" (by decide), spec_C3.2.1 "mp3" (by decide)⟩

/-- C8: after any lifecycle trace in which the startup hook has run and
the shutdown hook has not run since, the global session is live, so the
`assert session is not None` guard in `eleven_stream` cannot fire; and
with no live session `eleven_stream` fails fast on that assertion
before doing anything else. -/
theorem spec_C8 (pre post : List LifeEvent) (h : LifeEvent.shutdown ∉ post)
    (u : UpstreamResponse) :
    (runEvents none (pre ++ LifeEvent.startup :: post)).isSome = true ∧
    eleven_stream (runEvents none (pre ++ LifeEvent.startup :: post)) u ≠
      Except.error (StreamError.assertionFailed "Session not initialized") ∧
    eleven_stream none u =
      Except.error (StreamError.assertionFailed "Session not initialized") := by
  have happ : ∀ (s : Option Session) (a b : List LifeEvent),
      runEvents s (a ++ b) = runEvents (runEvents s a) b := by
    intro s a
    induction a generalizing s with
    | nil => intro b; rfl
    | cons e es ih =>
      intro b
      simp only [List.cons_append, runEvents]
      exact ih _ b
  have hsome : ∀ (q : List LifeEvent), LifeEvent.shutdown ∉ q →
      ∀ s : Session, (runEvents (some s) q).isSome = true := by
    intro q
    induction q with
    | nil => intro _ s; rfl
    | cons e es ih =>
      intro hq s
      cases e with
      | startup =>
        exact ih (fun hmem => hq (List.mem_cons_of_mem _ hmem)) _
      | shutdown =>
        exact absurd (List.mem_cons_self _ _) hq
  have hlive : (runEvents none (pre ++ LifeEvent.startup :: post)).isSome = true := by
    rw [happ]
    show (runEvents (applyEvent (runEvents none pre) .startup) post).isSome = true
    exact hsome post h _
  refine ⟨hlive, ?_, rfl⟩
  obtain ⟨s, hs⟩ := Option.isSome_iff_exists.mp hlive
  rw [hs]
  by_cases h200 : u.status = 200
  · simp [eleven_stream, h200]
  · simp [eleven_stream, h200]

/-- Witness for C8 on the trace that only runs the startup hook. -/
theorem spec_C8_witness :
    (runEvents none ([] ++ LifeEvent.startup :: [])).isSome = true ∧
    eleven_stream (runEvents none ([] ++ LifeEvent.startup :: [])) ⟨200, "", []⟩ ≠
      Except.error (StreamError.assertionFailed "Session not initialized") ∧
    eleven_stream none ⟨200, "", []⟩ =
      Except.error (StreamError.assertionFailed "Session not initialized") :=
  spec_C8 [] [] (by simp) ⟨200, "", []⟩

/-- C9: each alias route produces exactly the same outcome as its
canonical counterpart on every configuration and request. -/
theorem spec_C9 :
    (∀ (cfg : Config) (req : Request),
      owui_backend_compat_slashslash cfg req = owui_backend_compat cfg req) ∧
    (∀ (cfg : Config) (vid : String) (req : Request),
      eleven_compatible_alias cfg vid req = eleven_compatible cfg vid req) :=
  ⟨fun _ _ => rfl, fun _ _ _ => rfl⟩

/-- C10: on the ElevenLabs-compatible route and its alias, a non-empty
path voice id is forwarded verbatim into the upstream per-voice URL —
no case-insensitive default sentinel and no fallback to the configured
default voice is applied. -/
theorem spec_C10 (cfg : Config) (vid : String) (req : Request) (d : JsonBody)
    (hb : req.body = some d) (hv : vid ≠ "") (ht : pyStrip (d.text.getD "") ≠ "") :
    ∃ call mt hs,
      eleven_compatible cfg vid req = Outcome.response call mt hs ∧
      eleven_compatible_alias cfg vid req = Outcome.response call mt hs ∧
      call.voice_id = some vid ∧
      (eleven_stream_request cfg call).url =
        "https://api.elevenlabs.io/v1/text-to-speech/" ++ vid ++ "/stream" := by
  have hcan : eleven_compatible cfg vid req = Outcome.response
      { text := pyStrip (d.text.getD ""), voice_id := some vid
        model_id := some (d.model_id.getD "eleven_flash_v2_5")
        voice_settings := d.voice_settings
        optimize_latency := d.optimize_streaming_latency.getD 4
        accept := "audio/mpeg" }
      "audio/mpeg"
      [("X-Accel-Buffering", "no"), ("Cache-Control", "no-store")] := by
    simp only [eleven_compatible, hb]
    rw [if_neg ht]
  refine ⟨_, _, _, hcan, hcan, rfl, ?_⟩
  simp [eleven_stream_request, orStr, hv]

/-- Witness for C10 with the literal path voice id `"Default"`, which is
used verbatim in the upstream URL instead of the configured default. -/
theorem spec_C10_witness :
    ∃ call mt hs,
      eleven_compatible ⟨"key", "envvoice", ""⟩ "Default"
        { body := some { text := some "hi" } } = Outcome.response call mt hs ∧
      eleven_compatible_alias ⟨"key", "envvoice", ""⟩ "Default"
        { body := some { text := some "hi" } } = Outcome.response call mt hs ∧
      call.voice_id = some "Default" ∧
      (eleven_stream_request ⟨"key", "envvoice", ""⟩ call).url =
        "https://api.elevenlabs.io/v1/text-to-speech/" ++ "Default" ++ "/stream" :=
  spec_C10 ⟨"key", "envvoice", ""⟩ "Default" { body := some { text := some "hi" } }
    { text := some "hi" } rfl (by decide) (by decide)

/-- C4: on every route, a text that is absent or only whitespace after
trimming produces a 400-class client error and no outbound upstream
call: `/speak` (401 when unauthorized, otherwise 400), `/tts/speech`
and its alias (400), `/v1/text-to-speech/(voice_id)` and its alias
(400), and `/v1/audio/speech` (400 after validation, 422 when `input`
is missing altogether so the body fails model validation). -/
theorem spec_C4 :
    (∀ (cfg : Config) (req : Request) (d : JsonBody), req.body = some d →
      pyStrip (d.text.getD "") = "" →
      (speak cfg req).isClientError = true ∧ (speak cfg req).callsUpstream = false) ∧
    (∀ (cfg : Config) (req : Request) (d : JsonBody), req.body = some d →
      pyStrip (orStr d.text (orStr d.input "")) = "" →
      owui_backend_compat cfg req = Outcome.error 400 "Missing 'text' or 'input' field" ∧
      owui_backend_compat_slashslash cfg req =
        Outcome.error 400 "Missing 'text' or 'input' field") ∧
    (∀ (cfg : Config) (vid : String) (req : Request) (d : JsonBody), req.body = some d →
      pyStrip (d.text.getD "") = "" →
      eleven_compatible cfg vid req = Outcome.error 400 "Missing text" ∧
      eleven_compatible_alias cfg vid req = Outcome.error 400 "Missing text") ∧
    (∀ (cfg : Config) (r : OpenAITTSRequest) (tok : Option String),
      pyStrip r.input = "" →
      (openai_audio_speech cfg (some r) tok).isClientError = true ∧
      (openai_audio_speech cfg (some r) tok).callsUpstream = false) ∧
    (∀ (cfg : Config) (tok : Option String),
      (openai_audio_speech cfg none tok).isClientError = true ∧
      (openai_audio_speech cfg none tok).callsUpstream = false) := by
  refine ⟨?_, ?_, ?_, ?_, ?_⟩
  · intro cfg req d hb ht
    cases ha : _authed cfg req with
    | false => simp [speak, ha, Outcome.isClientError, Outcome.callsUpstream]
    | true => simp [speak, ha, hb, ht, Outcome.isClientError, Outcome.callsUpstream]
  · intro cfg req d hb ht
    refine ⟨?_, ?_⟩ <;>
      simp [owui_backend_compat, owui_backend_compat_slashslash, hb, ht]
  · intro cfg vid req d hb ht
    refine ⟨?_, ?_⟩ <;>
      simp [eleven_compatible, eleven_compatible_alias, hb, ht]
  · intro cfg r tok ht
    by_cases htok : cfg.TTS_SHARED_TOKEN ≠ "" ∧ tok.getD "" ≠ cfg.TTS_SHARED_TOKEN
    · simp [openai_audio_speech, htok, Outcome.isClientError, Outcome.callsUpstream]
    · simp [openai_audio_speech, htok, ht, Outcome.isClientError, Outcome.callsUpstream]
  · intro cfg tok
    exact ⟨rfl, rfl⟩

/-- Witness for C4 on concrete whitespace-only or absent texts for each
route family. -/
theorem spec_C4_witness :
    (speak ⟨"k", "v", ""⟩ { body := some { text := some "   " } }).isClientError = true ∧
    owui_backend_compat ⟨"k", "v", ""⟩ { body := some {} } =
      Outcome.error 400 "Missing 'text' or 'input' field" ∧
    eleven_compatible ⟨"k", "v", ""⟩ "vox" { body := some { text := some "" } } =
      Outcome.error 400 "Missing text" ∧
    (openai_audio_speech ⟨"k", "v", ""⟩ (some { input := " " }) none).isClientError = true ∧
    (openai_audio_speech ⟨"k", "v", ""⟩ none none).isClientError = true :=
  ⟨(spec_C4.1 ⟨"k", "v", ""⟩ _ { text := some "   " } rfl (by decide)).1,
   (spec_C4.2.1 ⟨"k", "v", ""⟩ _ {} rfl (by decide)).1,
   (spec_C4.2.2.1 ⟨"k", "v", ""⟩ "vox" _ { text := some "" } rfl (by decide)).1,
   (spec_C4.2.2.2.1 ⟨"k", "v", ""⟩ { input := " " } none (by decide)).1,
   (spec_C4.2.2.2.2 ⟨"k", "v", ""⟩ none).1⟩

/-- C6 counterexample: a malformed JSON body on `/speak` (authorized,
since no shared token is configured) and on
`/v1/text-to-speech/(voice_id)` escapes the handler as an uncaught
parse exception, which the framework answers with HTTP 500 — not a
400-class client error as the claim states. -/
theorem spec_C6_counterexample :
    speak ⟨"k", "v", ""⟩ { body := none } = Outcome.serverError ∧
    (speak ⟨"k", "v", ""⟩ { body := none }).isClientError = false ∧
    eleven_compatible ⟨"k", "v", ""⟩ "vox" { body := none } = Outcome.serverError ∧
    (eleven_compatible ⟨"k", "v", ""⟩ "vox" { body := none }).isClientError = false := by
  refine ⟨by decide, by decide, rfl, rfl⟩

/-- C6 amended: a malformed JSON body yields a 400 on `/tts/speech` and
its double-slash alias and a 422 on `/v1/audio/speech`, but on `/speak`
(when the request passes the token check) and on
`/v1/text-to-speech/(voice_id)` and its alias the parse failure escapes
as an uncaught exception, surfaced as a 500 server error. -/
theorem spec_C6 :
    (∀ (cfg : Config) (req : Request), req.body = none →
      owui_backend_compat cfg req = Outcome.error 400 "Invalid JSON" ∧
      owui_backend_compat_slashslash cfg req = Outcome.error 400 "Invalid JSON") ∧
    (∀ (cfg : Config) (tok : Option String),
      openai_audio_speech cfg none tok = Outcome.error 422 "Unprocessable Entity") ∧
    (∀ (cfg : Config) (req : Request), _authed cfg req = true → req.body = none →
      speak cfg req = Outcome.serverError) ∧
    (∀ (cfg : Config) (vid : String) (req : Request), req.body = none →
      eleven_compatible cfg vid req = Outcome.serverError ∧
      eleven_compatible_alias cfg vid req = Outcome.serverError) := by
  refine ⟨?_, ?_, ?_, ?_⟩
  · intro cfg req hb
    refine ⟨?_, ?_⟩ <;> simp [owui_backend_compat, owui_backend_compat_slashslash, hb]
  · intro cfg tok
    rfl
  · intro cfg req ha hb
    simp [speak, ha, hb]
  · intro cfg vid req hb
    refine ⟨?_, ?_⟩ <;> simp [eleven_compatible, eleven_compatible_alias, hb]

/-- Witness for C6 on concrete unparseable bodies. -/
theorem spec_C6_witness :
    owui_backend_compat ⟨"k", "v", ""⟩ { body := none } = Outcome.error 400 "Invalid JSON" ∧
    openai_audio_speech ⟨"k", "v", ""⟩ none none = Outcome.error 422 "Unprocessable Entity" ∧
    speak ⟨"k", "v", ""⟩ { xTTSToken := some "t", body := none } = Outcome.serverError ∧
    eleven_compatible_alias ⟨"k", "v", ""⟩ "vox" { body := none } = Outcome.serverError :=
  ⟨(spec_C6.1 ⟨"k", "v", ""⟩ { body := none } rfl).1,
   spec_C6.2.1 ⟨"k", "v", ""⟩ none,
   spec_C6.2.2.1 ⟨"k", "v", ""⟩ { xTTSToken := some "t", body := none } (by decide) rfl,
   (spec_C6.2.2.2 ⟨"k", "v", ""⟩ "vox" { body := none } rfl).2⟩

/-- C5 counterexample: with a shared secret configured, a request to
`/v1/audio/speech` whose body fails model validation and whose
`X-TTS-Token` header is absent (hence not matching) is answered 422 by
request validation before the handler's token check can run — not 401
as the claim states for any such request. -/
theorem spec_C5_counterexample :
    openai_audio_speech ⟨"k", "v", "secret"⟩ none none =
      Outcome.error 422 "Unprocessable Entity" ∧
    (openai_audio_speech ⟨"k", "v", "secret"⟩ none none).statusCode ≠ 401 := by
  exact ⟨rfl, by decide⟩

/-- C5 amended: when a shared secret is configured, a request to
`/speak` with a non-matching (or absent) `X-TTS-Token` yields 401, and
a request to `/v1/audio/speech` whose body passes model validation and
whose token does not match yields 401; a request to `/v1/audio/speech`
whose body fails validation yields 422 before the token check; in all
these cases no outbound call is made.  When no shared secret is
configured, the outcome of both routes is independent of the header. -/
theorem spec_C5 :
    (∀ (cfg : Config) (req : Request), cfg.TTS_SHARED_TOKEN ≠ "" →
      req.xTTSToken ≠ some cfg.TTS_SHARED_TOKEN →
      speak cfg req = Outcome.error 401 "Unauthorized") ∧
    (∀ (cfg : Config) (r : OpenAITTSRequest) (tok : Option String),
      cfg.TTS_SHARED_TOKEN ≠ "" → tok.getD "" ≠ cfg.TTS_SHARED_TOKEN →
      openai_audio_speech cfg (some r) tok = Outcome.error 401 "Invalid TTS token") ∧
    (∀ (cfg : Config) (tok : Option String),
      openai_audio_speech cfg none tok = Outcome.error 422 "Unprocessable Entity" ∧
      (openai_audio_speech cfg none tok).callsUpstream = false) ∧
    (∀ (cfg : Config) (req : Request) (tok1 tok2 : Option String),
      cfg.TTS_SHARED_TOKEN = "" →
      speak cfg { req with xTTSToken := tok1 } = speak cfg { req with xTTSToken := tok2 }) ∧
    (∀ (cfg : Config) (parsed : Option OpenAITTSRequest) (tok1 tok2 : Option String),
      cfg.TTS_SHARED_TOKEN = "" →
      openai_audio_speech cfg parsed tok1 = openai_audio_speech cfg parsed tok2) := by
  refine ⟨?_, ?_, ?_, ?_, ?_⟩
  · intro cfg req h1 h2
    have ha : _authed cfg req = false := by
      simp [_authed, h1, h2]
    simp [speak, ha]
  · intro cfg r tok h1 h2
    simp only [openai_audio_speech]
    rw [if_pos ⟨h1, h2⟩]
  · intro cfg tok
    exact ⟨rfl, rfl⟩
  · intro cfg req tok1 tok2 h
    have ha : ∀ t : Option String, _authed cfg { req with xTTSToken := t } = true := by
      intro t
      simp [_authed, h]
    simp [speak, ha]
  · intro cfg parsed tok1 tok2 h
    cases parsed with
    | none => rfl
    | some r => simp [openai_audio_speech, h]

/-- Witness for C5: a wrong token on `/speak`, an absent token on
`/v1/audio/speech` with a valid body, and header-independence of
`/speak` when no secret is configured. -/
theorem spec_C5_witness :
    speak ⟨"k", "v", "s"⟩ { xTTSToken := some "wrong", body := some { text := some "hi" } } =
      Outcome.error 401 "Unauthorized" ∧
    openai_audio_speech ⟨"k", "v", "s"⟩ (some { input := "hi" }) none =
      Outcome.error 401 "Invalid TTS token" ∧
    speak ⟨"k", "v", ""⟩ { xTTSToken := some "anything", body := some { text := some "hi" } } =
      speak ⟨"k", "v", ""⟩ { xTTSToken := none, body := some { text := some "hi" } } :=
  ⟨spec_C5.1 ⟨"k", "v", "s"⟩ _ (by decide) (by decide),
   spec_C5.2.1 ⟨"k", "v", "s"⟩ { input := "hi" } none (by decide) (by decide),
   spec_C5.2.2.2.1 ⟨"k", "v", ""⟩ { xTTSToken := none, body := some { text := some "hi" } }
     (some "anything") none rfl⟩

/-- C7: on the OpenAI-compatible route and the OpenWebUI route, a voice
equal to `"default"` under case-insensitive comparison resolves to the
configured default voice identifier (not the literal string), and an
absent voice also falls back to the configured default. -/
theorem spec_C7 :
    (∀ (cfg : Config) (r : OpenAITTSRequest) (tok : Option String) (v : String),
      tok = some cfg.TTS_SHARED_TOKEN → cfg.ELEVEN_VOICE_ID ≠ "" →
      pyStrip r.input ≠ "" → r.voice = some v → pyLower v = "default" →
      openai_audio_speech cfg (some r) tok = Outcome.response
        { text := pyStrip r.input, voice_id := some cfg.ELEVEN_VOICE_ID
          model_id := some "eleven_flash_v2_5", optimize_latency := 4
          accept := _mime_type (pyLower (orStr r.response_format "mp3")) }
        (_mime_type (pyLower (orStr r.response_format "mp3")))
        [("X-Accel-Buffering", "no"), ("Cache-Control", "no-store")]) ∧
    (∀ (cfg : Config) (r : OpenAITTSRequest) (tok : Option String),
      tok = some cfg.TTS_SHARED_TOKEN → cfg.ELEVEN_VOICE_ID ≠ "" →
      pyStrip r.input ≠ "" → r.voice = none →
      openai_audio_speech cfg (some r) tok = Outcome.response
        { text := pyStrip r.input, voice_id := some cfg.ELEVEN_VOICE_ID
          model_id := some "eleven_flash_v2_5", optimize_latency := 4
          accept := _mime_type (pyLower (orStr r.response_format "mp3")) }
        (_mime_type (pyLower (orStr r.response_format "mp3")))
        [("X-Accel-Buffering", "no"), ("Cache-Control", "no-store")]) ∧
    (∀ (cfg : Config) (req : Request) (p : JsonBody) (v : String),
      req.body = some p → pyStrip (orStr p.text (orStr p.input "")) ≠ "" →
      p.voice = some v → pyLower v = "default" →
      owui_backend_compat cfg req = Outcome.response
        { text := pyStrip (orStr p.text (orStr p.input ""))
          voice_id := some cfg.ELEVEN_VOICE_ID
          model_id := some "eleven_flash_v2_5", optimize_latency := 4
          accept := _accept_for (orStr p.format "audio/mpeg") }
        (_accept_for (orStr p.format "audio/mpeg"))
        [("X-Accel-Buffering", "no"), ("Cache-Control", "no-store")]) ∧
    (∀ (cfg : Config) (req : Request) (p : JsonBody),
      req.body = some p → pyStrip (orStr p.text (orStr p.input "")) ≠ "" →
      p.voice = none → p.voice_id = none →
      owui_backend_compat cfg req = Outcome.response
        { text := pyStrip (orStr p.text (orStr p.input ""))
          voice_id := some cfg.ELEVEN_VOICE_ID
          model_id := some "eleven_flash_v2_5", optimize_latency := 4
          accept := _accept_for (orStr p.format "audio/mpeg") }
        (_accept_for (orStr p.format "audio/mpeg"))
        [("X-Accel-Buffering", "no"), ("Cache-Control", "no-store")]) := by
  have hvne : ∀ v : String, pyLower v = "default" → v ≠ "" := by
    intro v hlow he
    subst he
    exact absurd hlow (by decide)
  refine ⟨?_, ?_, ?_, ?_⟩
  · intro cfg r tok v htok hdef ht hv hlow
    have hv0 : orStr r.voice cfg.ELEVEN_VOICE_ID = v := by
      simp [hv, orStr, hvne v hlow]
    have htokn : ¬(cfg.TTS_SHARED_TOKEN ≠ "" ∧ tok.getD "" ≠ cfg.TTS_SHARED_TOKEN) :=
      fun hc => hc.2 (by rw [htok]; rfl)
    have hsent : v ≠ "" ∧ pyLower v = "default" := ⟨hvne v hlow, hlow⟩
    simp only [openai_audio_speech]
    rw [if_neg htokn, hv0, if_pos hsent, if_neg ht, if_neg hdef]
  · intro cfg r tok htok hdef ht hv
    have hv0 : orStr r.voice cfg.ELEVEN_VOICE_ID = cfg.ELEVEN_VOICE_ID := by
      simp [hv, orStr]
    have htokn : ¬(cfg.TTS_SHARED_TOKEN ≠ "" ∧ tok.getD "" ≠ cfg.TTS_SHARED_TOKEN) :=
      fun hc => hc.2 (by rw [htok]; rfl)
    simp only [openai_audio_speech]
    rw [if_neg htokn, hv0, ite_self, if_neg ht, if_neg hdef]
  · intro cfg req p v hb ht hv hlow
    have hv0 : orStr p.voice (orStr p.voice_id cfg.ELEVEN_VOICE_ID) = v := by
      simp [hv, orStr, hvne v hlow]
    have hsent : v ≠ "" ∧ pyLower v = "default" := ⟨hvne v hlow, hlow⟩
    simp only [owui_backend_compat, hb]
    rw [hv0, if_pos hsent, if_neg ht]
  · intro cfg req p hb ht hv hvid
    have hv0 : orStr p.voice (orStr p.voice_id cfg.ELEVEN_VOICE_ID) = cfg.ELEVEN_VOICE_ID := by
      simp [hv, hvid, orStr]
    simp only [owui_backend_compat, hb]
    rw [hv0, ite_self, if_neg ht]

/-- Witness for C7: the voice `"DEFAULT"` on the OpenAI route and an
absent voice on the OpenWebUI route both resolve to the configured
default voice. -/
theorem spec_C7_witness :
    openai_audio_speech ⟨"k", "envvoice", ""⟩
      (some { voice := some "DEFAULT", input := "hello" }) (some "") =
      Outcome.response
        { text := pyStrip "hello", voice_id := some "envvoice"
          model_id := some "eleven_flash_v2_5", optimize_latency := 4
          accept := _mime_type (pyLower (orStr (some "mp3") "mp3")) }
        (_mime_type (pyLower (orStr (some "mp3") "mp3")))
        [("X-Accel-Buffering", "no"), ("Cache-Control", "no-store")] ∧
    owui_backend_compat ⟨"k", "envvoice", ""⟩ { body := some { text := some "hello" } } =
      Outcome.response
        { text := pyStrip (orStr (some "hello") (orStr none ""))
          voice_id := some "envvoice"
          model_id := some "eleven_flash_v2_5", optimize_latency := 4
          accept := _accept_for (orStr none "audio/mpeg") }
        (_accept_for (orStr none "audio/mpeg"))
        [("X-Accel-Buffering", "no"), ("Cache-Control", "no-store")] :=
  ⟨spec_C7.1 ⟨"k", "envvoice", ""⟩ { voice := some "DEFAULT", input := "hello" } (some "")
      "DEFAULT" rfl (by decide) (by decide) rfl (by decide),
   spec_C7.2.2.2 ⟨"k", "envvoice", ""⟩ { body := some { text := some "hello" } }
      { text := some "hello" } rfl (by decide) rfl rfl⟩

end TTSProxy
